import Mathlib

/-!
Verification development for the RAG knowledge-base retrieval engine
(vector_store.py and llm_service.py).

Shallow embedding conventions:
* Embedding vectors are modelled as lists of rationals (`List ℚ`); the
  structural claims under verification (result counts, ordering, filtering,
  string assembly) do not depend on floating-point rounding.
* The external sentence-transformer encoder and the in-place
  `faiss.normalize_L2` routine are modelled as abstract functions carried in
  an `Env`; theorems that need the encoder contract (one vector per input
  text) take it as a hypothesis, mirroring §4.2 of the design.
* `faiss.IndexFlatIP.search` is an exact brute-force scan returning the
  top-k inner products in non-increasing score order, ties broken by
  ascending insertion offset, with scores paired with int64 row offsets
  (`-1` being the library's "no match" sentinel).
* Python exceptions are modelled with `Except`; a `raise` before any field
  assignment corresponds to returning `.error` with the state untouched.
* Python strings are Lean `String`s; `str.split`, `str.strip`, `str.lower`
  and slicing are re-implemented structurally over the character list so
  that concrete instances reduce by `decide`.
-/

namespace RagKB

/-- Metadata dictionary attached to a chunk; entries may be absent, and the
code reads them through `dict.get` with defaults. -/
structure Metadata where
  doc_id : Option String
  chunk_id : Option Int
  source : Option String
deriving Repr, DecidableEq

/-- A retrieval result triple `(text, metadata, score)` as produced by
`VectorStore.similarity_search`. -/
abbrev Chunk := String × Metadata × ℚ

/-- External capabilities consumed by the vector store: the sentence
transformer's `encode` batch call and `faiss.normalize_L2`. -/
structure Env where
  encode : List String → List (List ℚ)
  normalize : List (List ℚ) → List (List ℚ)

/-- In-memory state of `VectorStore`: the FAISS flat index rows and the two
parallel side sequences, plus the configured identity fields. -/
structure VectorStore where
  model_name : String
  dimension : Nat
  vectors : List (List ℚ)
  texts : List String
  metadata : List Metadata
deriving Repr, DecidableEq

/-- Number of rows held by the flat index (`self.index.ntotal`). -/
def VectorStore.ntotal (s : VectorStore) : Nat := s.vectors.length

/-- Freshly constructed store before `_load_index` runs: empty index of the
fixed dimension 384, empty side tables. -/
def initStore (model_name : String) : VectorStore :=
  { model_name := model_name, dimension := 384, vectors := [], texts := [], metadata := [] }

/-- Inner product of two vectors, the scoring kernel of `IndexFlatIP`. -/
def dot (v w : List ℚ) : ℚ := (List.zipWith (fun a b => a * b) v w).sum

/-- Ranking order of the exact scan: higher score first, ties by ascending
row offset. `scanLE a b` means `a` may come before `b`. -/
def scanLE (a b : ℚ × Int) : Prop := b.1 < a.1 ∨ (a.1 = b.1 ∧ a.2 ≤ b.2)

instance : DecidableRel scanLE := fun a b =>
  inferInstanceAs (Decidable (b.1 < a.1 ∨ (a.1 = b.1 ∧ a.2 ≤ b.2)))

instance : IsTotal (ℚ × Int) scanLE := by
  constructor
  intro a b
  rcases lt_trichotomy a.1 b.1 with h | h | h
  · exact Or.inr (Or.inl h)
  · rcases le_total a.2 b.2 with h2 | h2
    · exact Or.inl (Or.inr ⟨h, h2⟩)
    · exact Or.inr (Or.inr ⟨h.symm, h2⟩)
  · exact Or.inl (Or.inl h)

instance : IsTrans (ℚ × Int) scanLE := by
  constructor
  intro a b c hab hbc
  rcases hab with h1 | ⟨h1, h1x⟩ <;> rcases hbc with h2 | ⟨h2, h2x⟩
  · exact Or.inl (h2.trans h1)
  · exact Or.inl (h2 ▸ h1)
  · exact Or.inl (h1 ▸ h2)
  · exact Or.inr ⟨h1.trans h2, h1x.trans h2x⟩

/-- Exact top-k scan of `IndexFlatIP.search`: score every stored row against
the query vector, order by `scanLE`, keep the first `k` `(score, offset)`
pairs — the zipped `(scores[0], indices[0])` the Python code consumes. -/
def index_search (s : VectorStore) (qv : List ℚ) (k : Nat) : List (ℚ × Int) :=
  (List.insertionSort scanLE (s.vectors.enum.map (fun p => (dot qv p.2, (p.1 : Int))))).take k

/-- Result-formatting loop of `similarity_search` (lines 89–96): keep a pair
only when `idx < len(self.texts) and idx != -1`, and look up the parallel
side tables at the surviving offset. -/
def format_results (s : VectorStore) (pairs : List (ℚ × Int)) : List Chunk :=
  pairs.filterMap (fun p =>
    if p.2 < (s.texts.length : Int) ∧ p.2 ≠ -1 then
      some (s.texts.getD p.2.toNat "", s.metadata.getD p.2.toNat ⟨none, none, none⟩, p.1)
    else none)

/-- Translation of `VectorStore.similarity_search`: empty store short-circuits
to `[]` before any embedding call; otherwise the query is embedded (batch of
one, first row kept), normalized, `k` is clamped to `ntotal`, and the scan
output is filtered into result triples. -/
def similarity_search (env : Env) (s : VectorStore) (query : String) (k : Nat) : List Chunk :=
  if s.ntotal = 0 then []
  else
    let query_embeddings := env.encode [query]
    let query_embedding := query_embeddings.take 1
    let normalized := env.normalize query_embedding
    let qv := normalized.headD []
    let k2 := min k s.ntotal
    format_results s (index_search s qv k2)

/-- Translation of `VectorStore.add_documents`: the length check raises
(`.error`) before anything is touched, empty input is a successful no-op,
otherwise the batch is embedded, normalized, and appended to the index and
to both side tables. (The trailing `_save_index` call only performs disk
I/O, swallows its own errors, and does not change the in-memory state.) -/
def add_documents (env : Env) (s : VectorStore) (texts : List String)
    (metadatas : List Metadata) : Except String VectorStore :=
  if texts.length ≠ metadatas.length then
    Except.error "Number of texts and metadatas must match"
  else if texts.isEmpty then Except.ok s
  else
    let embeddings := env.encode texts
    let normalized := env.normalize embeddings
    Except.ok { s with
      vectors := s.vectors ++ normalized,
      texts := s.texts ++ texts,
      metadata := s.metadata ++ metadatas }

/-- Caller-visible transition of `add_documents` under Python exception
semantics: on a raise the object keeps its previous state and the caller
observes the error message. -/
def run_add (env : Env) (s : VectorStore) (texts : List String)
    (metadatas : List Metadata) : VectorStore × Option String :=
  match add_documents env s texts metadatas with
  | Except.ok s2 => (s2, none)
  | Except.error e => (s, some e)

/-- Statistics record returned by `VectorStore.get_stats`. -/
structure Stats where
  total_vectors : Nat
  dimension : Nat
  model_name : String
  total_texts : Nat
  total_metadata : Nat
deriving Repr, DecidableEq

/-- Translation of `VectorStore.get_stats`. -/
def get_stats (s : VectorStore) : Stats :=
  { total_vectors := s.ntotal, dimension := s.dimension, model_name := s.model_name,
    total_texts := s.texts.length, total_metadata := s.metadata.length }

/-- Translation of `VectorStore.clear`: fresh flat index of the same
dimension, empty side tables; `model_name` and `dimension` are untouched.
(The on-disk artifact deletion is filesystem-only.) -/
def clear (s : VectorStore) : VectorStore :=
  { s with vectors := [], metadata := [], texts := [] }

/-- On-disk artifact as seen by `_load_index`: absent, present but failing
to parse (read/unpickle raises), or successfully parsed. -/
inductive Artifact (α : Type) : Type
  | missing : Artifact α
  | corrupt : Artifact α
  | ok : α → Artifact α
deriving Repr, DecidableEq

/-- Parsed pickle side-table `{metadata, texts, model_name}`; the code reads
each key through `dict.get` with a default, so fields may be absent. -/
structure SideTable where
  metadata : Option (List Metadata)
  texts : Option (List String)
  model_name : Option String
deriving Repr, DecidableEq

/-- Body of the `try` block of `_load_index`: if either artifact is missing,
leave the (fresh) state and log; a parse failure raises; on success install
the loaded rows and side tables and warn when the persisted model identity
differs from the configured one. -/
def load_attempt (s : VectorStore) (idxArt : Artifact (List (List ℚ)))
    (metaArt : Artifact SideTable) : Except String (VectorStore × List String) :=
  match idxArt, metaArt with
  | Artifact.missing, _ => Except.ok (s, ["No existing index found, starting fresh"])
  | _, Artifact.missing => Except.ok (s, ["No existing index found, starting fresh"])
  | Artifact.corrupt, _ => Except.error "Error loading index"
  | _, Artifact.corrupt => Except.error "Error loading index"
  | Artifact.ok rows, Artifact.ok tbl =>
    let s2 := { s with vectors := rows, metadata := tbl.metadata.getD [],
                       texts := tbl.texts.getD [] }
    let saved_model := tbl.model_name.getD s.model_name
    let logs :=
      if saved_model ≠ s.model_name then
        ["Model mismatch: saved=" ++ saved_model ++ ", current=" ++ s.model_name,
         "Loaded vector index"]
      else ["Loaded vector index"]
    Except.ok (s2, logs)

/-- Translation of `VectorStore._load_index`: the whole body is wrapped in
`try/except`, so the function is total by construction — any raised error is
caught and the state reset to a fresh empty index. -/
def load_index (s : VectorStore) (idxArt : Artifact (List (List ℚ)))
    (metaArt : Artifact SideTable) : VectorStore × List String :=
  match load_attempt s idxArt metaArt with
  | Except.ok r => r
  | Except.error e =>
    ({ s with vectors := [], metadata := [], texts := [] },
     [e, "Starting with fresh index"])

/-- Split a character list on a separator character; like Python
`str.split(sep)` this keeps empty pieces and yields `n+1` pieces for `n`
separators. -/
def splitChar (c : Char) : List Char → List (List Char)
  | [] => [[]]
  | x :: xs =>
    let r := splitChar c xs
    if x = c then [] :: r
    else
      match r with
      | [] => [[x]]
      | y :: ys => (x :: y) :: ys

/-- Python `s.split('.')` over a Lean string. -/
def pySplitDot (s : String) : List String :=
  (splitChar '.' s.data).map (fun l => String.mk l)

/-- Python `str.strip()`: drop leading and trailing whitespace. -/
def pyStrip (s : String) : String :=
  String.mk (((s.data.dropWhile Char.isWhitespace).reverse.dropWhile Char.isWhitespace).reverse)

/-- Python `str.lower()` (ASCII case folding, all the sources use ASCII). -/
def lowerStr (s : String) : String := String.mk (s.data.map Char.toLower)

/-- Accumulator pass behind `pySplit`: split on runs of whitespace,
discarding empty pieces, like argument-less Python `str.split()`. -/
def wsSplitAux (acc : List Char) : List Char → List (List Char)
  | [] => if acc.isEmpty then [] else [acc.reverse]
  | x :: xs =>
    if x.isWhitespace then
      if acc.isEmpty then wsSplitAux [] xs
      else acc.reverse :: wsSplitAux [] xs
    else wsSplitAux (x :: acc) xs

/-- Python `str.split()` with no argument. -/
def pySplit (s : String) : List String :=
  (wsSplitAux [] s.data).map (fun l => String.mk l)

/-- Python slicing `s[:n]` (first `n` code points). -/
def pyTake (n : Nat) (s : String) : String := String.mk (s.data.take n)

/-- Python `sep.join(parts)`. -/
def joinWith (sep : String) : List String → String
  | [] => ""
  | [x] => x
  | x :: xs => x ++ sep ++ joinWith sep xs

/-- Python `f"{x:.2f}"` on the rational score model: round to hundredths and
print with exactly two decimal places. -/
def format2 (q : ℚ) : String :=
  let n : Int := round (q * 100)
  let m : Nat := n.natAbs
  let core := toString (m / 100) ++ "." ++ (if m % 100 < 10 then "0" else "") ++ toString (m % 100)
  if n < 0 then "-" ++ core else core

/-- State of `LLMService` fixed at construction: whether an OpenAI API key
was found. -/
structure LLMService where
  use_openai : Bool

/-- Internal calls `generate_response` can make, recorded as a trace so that
non-invocation claims are statable. -/
inductive Call : Type
  | prepareContext : Call
  | openaiCall : Call
  | fallbackCall : Call
deriving Repr, DecidableEq

/-- Translation of `LLMService._prepare_context`: the first five chunks are
rendered as labeled parts (header line with 1-based position, `source`
defaulting to "Unknown", `chunk_id` defaulting to 0, then the raw text and a
trailing newline) and joined with a newline. -/
def prepare_context (context_chunks : List Chunk) : String :=
  let parts := (context_chunks.take 5).enum.map (fun p =>
    "[Source " ++ toString (p.1 + 1) ++ ": " ++ p.2.2.1.source.getD "Unknown"
      ++ ", Chunk " ++ toString (p.2.2.1.chunk_id.getD 0) ++ "]\n" ++ p.2.1 ++ "\n")
  joinWith "\n" parts

/-- Multi-source footnote of `_generate_fallback_response` (lines 131–137):
with more than one result, collect the `source` labels of the top three and,
when more than one distinct label remains after `list(set(...))`, append a
note counting and listing them. The unordered Python set is modelled as
first-occurrence deduplication. -/
def fallback_sources_note (context_chunks : List Chunk) : String :=
  if 1 < context_chunks.length then
    let sources := (context_chunks.take 3).map (fun c => c.2.1.source.getD "Unknown")
    let unique_sources := sources.dedup
    if 1 < unique_sources.length then
      "\n\nInformation was found across " ++ toString unique_sources.length
        ++ " sources: " ++ joinWith ", " unique_sources
    else ""
  else ""

/-- Translation of `LLMService._generate_fallback_response`: work on the
top-scoring chunk; split its text on periods, strip and drop empty segments;
keep segments sharing a lowercase whitespace token with the query; if any
survive answer with the first three joined by ". " plus source and
2-decimal score, otherwise answer with the first 300 characters of the chunk
("..." appended exactly when longer) plus source and score; finally append
the multi-source note. The `context` argument is received but, as in the
source, never used. -/
def generate_fallback_response (query context : String) (context_chunks : List Chunk) : String :=
  let query_lower := lowerStr query
  let response :=
    match context_chunks with
    | (best_chunk, best_metadata, best_score) :: _ =>
      let sentences := ((pySplitDot best_chunk).map pyStrip).filter (fun t => t != "")
      let query_words := pySplit query_lower
      let relevant_sentences :=
        sentences.filter (fun sentence => (pySplit (lowerStr sentence)).any
          (fun w => query_words.contains w))
      if relevant_sentences.isEmpty then
        "I found information related to your query in "
          ++ best_metadata.source.getD "the document"
          ++ ", but I couldn't extract specific details. Here's what I found:\n\n"
          ++ (if 300 < best_chunk.length then pyTake 300 best_chunk ++ "..." else best_chunk)
          ++ "\n\n(Relevance: " ++ format2 best_score ++ ")"
      else
        "Based on the available information:\n\n"
          ++ joinWith ". " (relevant_sentences.take 3)
          ++ "\n\nSource: " ++ best_metadata.source.getD "Unknown document"
          ++ " (Relevance: " ++ format2 best_score ++ ")"
    | [] =>
      "I couldn't find relevant information to answer your question in the uploaded documents."
  response ++ fallback_sources_note context_chunks

/-- System prompt literal of `_generate_openai_response`. -/
def systemPrompt : String :=
  "You are a helpful AI assistant that answers questions based on provided context. \n\n        Instructions:\n        - Answer the question based ONLY on the provided context\n        - If the context doesn't contain enough information, say so clearly\n        - Be concise but comprehensive\n        - Cite specific sources when making claims\n        - If asked about something not in the context, politely decline and explain what information is available\n        "

/-- Translation of `LLMService._generate_openai_response`: one backend call
with the fixed system prompt and the context/question user prompt. The
backend itself is an external capability. -/
def generate_openai_response (backend : String → String → String)
    (query context : String) : String :=
  backend systemPrompt
    ("Context:\n" ++ context ++ "\n\nQuestion: " ++ query
      ++ "\n\nPlease provide a detailed answer based on the context above.")

/-- Translation of `LLMService.generate_response`, instrumented with a trace
of the internal calls it makes: the empty-result check runs before context
assembly and before either synthesis strategy. -/
def generate_response (svc : LLMService) (backend : String → String → String)
    (query : String) (context_chunks : List Chunk) : String × List Call :=
  if context_chunks.isEmpty then
    ("I couldn't find relevant information to answer your question.", [])
  else
    let context := prepare_context context_chunks
    if svc.use_openai then
      (generate_openai_response backend query context, [Call.prepareContext, Call.openaiCall])
    else
      (generate_fallback_response query context context_chunks,
       [Call.prepareContext, Call.fallbackCall])

/-! Spec-side definitions, written from the specification's wording, used to
state refinement claims against the source translations above. -/

/-- Lowercase whitespace-delimited token set of a string (§4.4 step 2). -/
def tokenSet (s : String) : List String := pySplit (lowerStr s)

/-- Sentence-like segments of a chunk: split on the sentence-terminating
punctuation the code uses (the period), stripped, empty segments dropped
(§4.4 step 1). -/
def segments (text : String) : List String :=
  ((pySplitDot text).map pyStrip).filter (fun t => t != "")

/-- Segments of `text` whose token set intersects the query's token set
(§4.4 step 3). -/
def relevantSegments (query text : String) : List String :=
  (segments text).filter (fun seg => (tokenSet seg).any (fun w => (tokenSet query).contains w))

/-- Labeled block for one result at 1-based position `i+1` (§4.3): position,
`source` defaulting to "Unknown", `chunk_id` defaulting to 0, raw text. -/
def specBlock (i : Nat) (c : Chunk) : String :=
  "[Source " ++ toString (i + 1) ++ ": " ++ c.2.1.source.getD "Unknown"
    ++ ", Chunk " ++ toString (c.2.1.chunk_id.getD 0) ++ "]\n" ++ c.1

/-- Blocks of the assembled context: at most the first five results, in
order, each rendered by `specBlock` (§4.3). -/
def specBlocks (context_chunks : List Chunk) : List String :=
  (context_chunks.take 5).enum.map (fun p => specBlock p.1 p.2)

/-- Well-formedness invariant of the store: the two side tables run parallel
to the index rows. -/
def wf (s : VectorStore) : Prop :=
  s.texts.length = s.vectors.length ∧ s.metadata.length = s.vectors.length

/-- Concrete encoder environment used by the witnesses. -/
def envC : Env := { encode := fun ts => ts.map (fun _ => [(1 : ℚ)]), normalize := fun vs => vs }

/-- Concrete two-source result list used by the multi-source witnesses. -/
def chunksD : List Chunk :=
  [("a", ⟨none, none, some "doc1"⟩, 1), ("b", ⟨none, none, some "doc2"⟩, (1 : ℚ)/2)]

/-! Helper lemmas. -/

/-- The conditional-`filterMap` shape of the result-formatting loop is a
`filter` followed by a `map`. -/
theorem filterMap_ite {α β : Type} (p : α → Prop) [DecidablePred p] (g : α → β) (l : List α) :
    l.filterMap (fun x => if p x then some (g x) else none)
      = (l.filter (fun x => decide (p x))).map g := by
  induction l with
  | nil => rfl
  | cons a l ih =>
    by_cases h : p a
    · simp [List.filterMap_cons, List.filter_cons, h, ih]
    · simp [List.filterMap_cons, List.filter_cons, h, ih]

/-- Characterization of `format_results` as filter-then-lookup. -/
theorem format_results_eq (s : VectorStore) (pairs : List (ℚ × Int)) :
    format_results s pairs
      = (pairs.filter (fun p => decide (p.2 < (s.texts.length : Int) ∧ p.2 ≠ -1))).map
          (fun p => (s.texts.getD p.2.toNat "", s.metadata.getD p.2.toNat ⟨none, none, none⟩, p.1)) :=
  filterMap_ite _ _ pairs

/-- C1. For every index state and query, `similarity_search` returns at most
`min k ntotal` results whose scores are non-increasing, and on an empty
store it returns `[]` (short-circuiting before any embedding call); the
formatting loop silently drops every pair carrying the `-1` sentinel or an
offset at or past the side-table length, keeping exactly the structurally
valid pairs, and being a total function it never raises. -/
theorem similarity_search_spec :
    (∀ (env : Env) (s : VectorStore) (q : String) (k : Nat),
      (similarity_search env s q k).length ≤ min k s.ntotal ∧
      ((similarity_search env s q k).map (fun r => r.2.2)).Pairwise (fun a b => b ≤ a) ∧
      (s.ntotal = 0 → similarity_search env s q k = [])) ∧
    (∀ (s : VectorStore) (pairs : List (ℚ × Int)),
      format_results s (pairs.filter (fun p => decide (p.2 = -1 ∨ (s.texts.length : Int) ≤ p.2))) = [] ∧
      format_results s pairs
        = format_results s (pairs.filter (fun p => decide (p.2 < (s.texts.length : Int) ∧ p.2 ≠ -1)))) := by
  constructor
  · intro env s q k
    refine ⟨?_, ?_, ?_⟩
    · by_cases h : s.ntotal = 0
      · simp [similarity_search, h]
      · rw [similarity_search, if_neg h, format_results_eq]
        calc (((index_search s _ (min k s.ntotal)).filter _).map _).length
            ≤ (index_search s _ (min k s.ntotal)).length := by
              rw [List.length_map]; exact List.length_filter_le _ _
          _ ≤ min k s.ntotal := by
              rw [index_search, List.length_take]; exact min_le_left _ _
    · by_cases h : s.ntotal = 0
      · simp [similarity_search, h]
      · rw [similarity_search, if_neg h, format_results_eq, List.map_map, List.pairwise_map]
        have hsorted : (index_search s ((env.normalize ((env.encode [q]).take 1)).headD [])
            (min k s.ntotal)).Pairwise scanLE :=
          List.Pairwise.sublist (List.take_sublist _ _)
            (List.sorted_insertionSort scanLE _)
        refine List.Pairwise.imp ?_ (List.Pairwise.sublist (List.filter_sublist _) hsorted)
        intro a b hab
        show b.1 ≤ a.1
        rcases hab with h1 | ⟨h1, _⟩
        · exact le_of_lt h1
        · exact le_of_eq h1.symm
    · intro h
      simp [similarity_search, h]
  · intro s pairs
    constructor
    · rw [format_results_eq, List.filter_filter]
      have : pairs.filter (fun p =>
          decide (p.2 < (s.texts.length : Int) ∧ p.2 ≠ -1) &&
          decide (p.2 = -1 ∨ (s.texts.length : Int) ≤ p.2)) = [] := by
        rw [List.filter_eq_nil_iff]
        intro a _
        simp only [Bool.and_eq_true, decide_eq_true_eq, not_and]
        intro h1 h2
        rcases h2 with h2 | h2
        · exact h1.2 h2
        · exact absurd h1.1 (not_lt.mpr h2)
      rw [this]
      rfl
    · rw [format_results_eq, format_results_eq, List.filter_filter]
      congr 1
      apply List.filter_congr
      intro a _
      by_cases h : a.2 < (s.texts.length : Int) ∧ a.2 ≠ -1
      · simp [h]
      · simp [h]

/-- Witness for C1: the empty-store hypothesis holds of a fresh store, and
the search there returns the empty list. -/
theorem similarity_search_spec_witness :
    similarity_search envC (initStore "all-MiniLM-L6-v2") "hello" 5 = [] :=
  (similarity_search_spec.1 envC (initStore "all-MiniLM-L6-v2") "hello" 5).2.2 rfl

/-- C2. For equal-length inputs, `add_documents` succeeds, `total_vectors`
grows by exactly `texts.length`, and the three parallel sequences stay equal
length. The second hypothesis is the external encoder contract (§4.2): one
vector per input text, count preserved by `normalize_L2`. -/
theorem add_documents_grows (env : Env) (s : VectorStore) (texts : List String)
    (metadatas : List Metadata)
    (hlen : texts.length = metadatas.length)
    (henc : (env.normalize (env.encode texts)).length = texts.length)
    (hwf : wf s) :
    ∃ s2, add_documents env s texts metadatas = Except.ok s2 ∧
      (get_stats s2).total_vectors = (get_stats s).total_vectors + texts.length ∧
      wf s2 := by
  simp only [add_documents]
  rw [if_neg (fun hc => hc hlen)]
  by_cases he : texts.isEmpty
  · rw [if_pos he]
    have h0 : texts.length = 0 := by
      rw [List.isEmpty_iff] at he
      simp [he]
    exact ⟨s, rfl, by simp [h0], hwf⟩
  · rw [if_neg he]
    obtain ⟨hw1, hw2⟩ := hwf
    refine ⟨_, rfl, ?_, ?_, ?_⟩
    · simp [get_stats, VectorStore.ntotal, henc]
    · simp only [List.length_append, henc]
      omega
    · simp only [List.length_append, henc]
      omega

/-- Witness for C2: a one-document addition to the fresh store. -/
theorem add_documents_grows_witness :
    ∃ s2, add_documents envC (initStore "m") ["a"] [⟨none, none, none⟩] = Except.ok s2 ∧
      (get_stats s2).total_vectors = (get_stats (initStore "m")).total_vectors + 1 ∧
      wf s2 :=
  add_documents_grows envC (initStore "m") ["a"] [⟨none, none, none⟩] rfl rfl ⟨rfl, rfl⟩

/-- C3. With mismatched lengths `add_documents` raises the validation error,
and since the raise precedes every mutation the caller-visible state — and
therefore `get_stats` — is exactly what it was before the call. -/
theorem add_documents_mismatch (env : Env) (s : VectorStore) (texts : List String)
    (metadatas : List Metadata) (hne : texts.length ≠ metadatas.length) :
    add_documents env s texts metadatas
        = Except.error "Number of texts and metadatas must match" ∧
    run_add env s texts metadatas = (s, some "Number of texts and metadatas must match") ∧
    get_stats (run_add env s texts metadatas).1 = get_stats s := by
  have h1 : add_documents env s texts metadatas
      = Except.error "Number of texts and metadatas must match" := by
    simp only [add_documents]
    rw [if_pos hne]
  exact ⟨h1, by simp [run_add, h1], by simp [run_add, h1]⟩

/-- Witness for C3: one text against zero metadata entries. -/
theorem add_documents_mismatch_witness :
    add_documents envC (initStore "m") ["a"] []
        = Except.error "Number of texts and metadatas must match" ∧
    run_add envC (initStore "m") ["a"] []
        = (initStore "m", some "Number of texts and metadatas must match") ∧
    get_stats (run_add envC (initStore "m") ["a"] []).1 = get_stats (initStore "m") :=
  add_documents_mismatch envC (initStore "m") ["a"] [] (by decide)

/-- C9. `_load_index` never raises (it is total by construction, every error
being caught); whenever either artifact is missing or fails to parse the
freshly constructed store ends up empty; and a persisted model identity
differing from the configured one still loads the stored entries, adding
only a mismatch warning to the log. -/
theorem load_index_spec :
    (∀ (m : String) (idxArt : Artifact (List (List ℚ))) (metaArt : Artifact SideTable),
      (idxArt = Artifact.missing ∨ metaArt = Artifact.missing ∨
       idxArt = Artifact.corrupt ∨ metaArt = Artifact.corrupt) →
      (load_index (initStore m) idxArt metaArt).1.vectors = [] ∧
      (load_index (initStore m) idxArt metaArt).1.texts = [] ∧
      (load_index (initStore m) idxArt metaArt).1.metadata = []) ∧
    (∀ (s : VectorStore) (rows : List (List ℚ)) (tbl : SideTable) (saved : String),
      tbl.model_name = some saved → saved ≠ s.model_name →
      load_index s (Artifact.ok rows) (Artifact.ok tbl)
        = ({ s with
              vectors := rows,
              texts := tbl.texts.getD [],
              metadata := tbl.metadata.getD [] },
           ["Model mismatch: saved=" ++ saved ++ ", current=" ++ s.model_name,
            "Loaded vector index"])) := by
  constructor
  · intro m idxArt metaArt h
    cases idxArt <;> cases metaArt <;> simp_all [load_index, load_attempt, initStore]
  · intro s rows tbl saved hsaved hne
    simp [load_index, load_attempt, hsaved, hne]

/-- Witness for C9: a missing-artifact start and a model-identity mismatch
load, both at concrete inputs. -/
theorem load_index_spec_witness :
    ((load_index (initStore "m") Artifact.missing Artifact.missing).1.vectors = [] ∧
     (load_index (initStore "m") Artifact.missing Artifact.missing).1.texts = [] ∧
     (load_index (initStore "m") Artifact.missing Artifact.missing).1.metadata = []) ∧
    load_index (initStore "m") (Artifact.ok [[(1 : ℚ)]])
        (Artifact.ok ⟨some [], some ["t"], some "other"⟩)
      = ({ (initStore "m") with vectors := [[(1 : ℚ)]], texts := ["t"], metadata := [] },
         ["Model mismatch: saved=" ++ "other" ++ ", current=" ++ "m",
          "Loaded vector index"]) :=
  ⟨load_index_spec.1 "m" Artifact.missing Artifact.missing (Or.inl rfl),
   load_index_spec.2 (initStore "m") [[(1 : ℚ)]] ⟨some [], some ["t"], some "other"⟩ "other"
     rfl (by decide)⟩

/-- C10. `clear` keeps the reported `dimension` and `model_name`, zeroes
`total_vectors` and both side-table lengths, and every search performed on
the cleared store (before any further `add_documents`) returns the empty
sequence. -/
theorem clear_spec (env : Env) (s : VectorStore) (q : String) (k : Nat) :
    (get_stats (clear s)).dimension = (get_stats s).dimension ∧
    (get_stats (clear s)).model_name = (get_stats s).model_name ∧
    (get_stats (clear s)).total_vectors = 0 ∧
    (clear s).texts.length = 0 ∧ (clear s).metadata.length = 0 ∧
    similarity_search env (clear s) q k = [] := by
  refine ⟨rfl, rfl, rfl, rfl, rfl, ?_⟩
  simp [similarity_search, clear, VectorStore.ntotal]

/-- Concatenation of Lean strings is associative (used to re-associate the
assembled context blocks). -/
theorem str_append_assoc (a b c : String) : a ++ b ++ c = a ++ (b ++ c) := by
  cases a with
  | mk da =>
    cases b with
    | mk db =>
      cases c with
      | mk dc =>
        show String.mk (da ++ db ++ dc) = String.mk (da ++ (db ++ dc))
        rw [List.append_assoc]

/-- Joining newline-terminated parts with a newline is the same as joining
the bare blocks with a blank line and terminating the whole with a
newline. -/
theorem joinWith_nl (bs : List String) (h : bs ≠ []) :
    joinWith "\n" (bs.map (fun b => b ++ "\n")) = joinWith "\n\n" bs ++ "\n" := by
  induction bs with
  | nil => exact absurd rfl h
  | cons b bs ih =>
    cases bs with
    | nil => rfl
    | cons b2 bs2 =>
      have ihne : b2 :: bs2 ≠ [] := by simp
      show (b ++ "\n") ++ "\n" ++ joinWith "\n" ((b2 :: bs2).map (fun x => x ++ "\n"))
          = (b ++ "\n\n" ++ joinWith "\n\n" (b2 :: bs2)) ++ "\n"
      rw [ih ihne]
      simp only [str_append_assoc]
      congr 1

/-- C6. Context assembly uses at most the first five results; on a nonempty
list it renders, in order, the spec's labeled blocks (1-based position,
`source` defaulting to "Unknown", `chunk_id` defaulting to 0, raw text)
separated by a blank line (with a trailing newline); on no results it is
empty. -/
theorem prepare_context_spec :
    (∀ context_chunks : List Chunk,
      prepare_context context_chunks = prepare_context (context_chunks.take 5)) ∧
    (∀ context_chunks : List Chunk, context_chunks ≠ [] →
      prepare_context context_chunks
        = joinWith "\n\n" (specBlocks context_chunks) ++ "\n") ∧
    prepare_context [] = "" := by
  refine ⟨?_, ?_, rfl⟩
  · intro chunks
    simp [prepare_context, List.take_take]
  · intro chunks h
    have hb : specBlocks chunks ≠ [] := by
      cases chunks with
      | nil => exact absurd rfl h
      | cons c cs => exact List.cons_ne_nil _ _
    have hstep : prepare_context chunks
        = joinWith "\n" ((specBlocks chunks).map (fun b => b ++ "\n")) := by
      simp only [prepare_context, specBlocks, List.map_map]
      rfl
    rw [hstep, joinWith_nl _ hb]

/-- Witness for C6: a two-result list is assembled into two blank-line
separated blocks with defaults filled in. -/
theorem prepare_context_spec_witness :
    prepare_context [("hello", ⟨none, none, none⟩, 1), ("world", ⟨some "d", some 2, some "s2"⟩, (1 : ℚ)/2)]
      = joinWith "\n\n" (specBlocks [("hello", ⟨none, none, none⟩, 1),
          ("world", ⟨some "d", some 2, some "s2"⟩, (1 : ℚ)/2)]) ++ "\n" :=
  prepare_context_spec.2.1 _ (by simp)

/-- Unfolding of the fallback generator on a nonempty result list into its
two branches, keyed on emptiness of the relevant-segment selection; this is
definitional. -/
theorem generate_fallback_eq (query ctx text : String) (md : Metadata) (score : ℚ)
    (rest : List Chunk) :
    generate_fallback_response query ctx ((text, md, score) :: rest)
      = (if (relevantSegments query text).isEmpty then
            "I found information related to your query in " ++ md.source.getD "the document"
              ++ ", but I couldn't extract specific details. Here's what I found:\n\n"
              ++ (if 300 < text.length then pyTake 300 text ++ "..." else text)
              ++ "\n\n(Relevance: " ++ format2 score ++ ")"
          else
            "Based on the available information:\n\n"
              ++ joinWith ". " ((relevantSegments query text).take 3)
              ++ "\n\nSource: " ++ md.source.getD "Unknown document"
              ++ " (Relevance: " ++ format2 score ++ ")")
        ++ fallback_sources_note ((text, md, score) :: rest) := rfl

/-- C4. When some segment of the top chunk shares a lowercase token with the
query, the fallback answer is the first three surviving segments joined with
". " (plus the source/score tail and the multi-source note), every kept
segment indeed has lexical overlap with the query, and on the spec's
scenario C the selection keeps exactly the two overlapping sentences,
excluding "The sky is blue". -/
theorem fallback_overlap_spec :
    (∀ (query ctx text : String) (md : Metadata) (score : ℚ) (rest : List Chunk),
      relevantSegments query text ≠ [] →
      generate_fallback_response query ctx ((text, md, score) :: rest)
        = "Based on the available information:\n\n"
            ++ joinWith ". " ((relevantSegments query text).take 3)
            ++ "\n\nSource: " ++ md.source.getD "Unknown document"
            ++ " (Relevance: " ++ format2 score ++ ")"
            ++ fallback_sources_note ((text, md, score) :: rest)
      ∧ ∀ seg ∈ relevantSegments query text,
          (tokenSet seg).any (fun w => (tokenSet query).contains w) = true) ∧
    relevantSegments "At what temperature does ice melt?"
        "The sky is blue. Water boils at 100 degrees. Ice melts at 0 degrees."
      = ["Water boils at 100 degrees", "Ice melts at 0 degrees"] ∧
    "The sky is blue" ∉ relevantSegments "At what temperature does ice melt?"
        "The sky is blue. Water boils at 100 degrees. Ice melts at 0 degrees." := by
  refine ⟨?_, by decide, by decide⟩
  intro query ctx text md score rest h
  constructor
  · rw [generate_fallback_eq, if_neg (by simpa [List.isEmpty_iff] using h)]
  · intro seg hseg
    exact (List.mem_filter.mp hseg).2

/-- Witness for C4: the fallback response on scenario C's chunk and query. -/
theorem fallback_overlap_spec_witness :
    generate_fallback_response "At what temperature does ice melt?" ""
        [("The sky is blue. Water boils at 100 degrees. Ice melts at 0 degrees.",
          ⟨none, none, some "doc1"⟩, (9 : ℚ)/10)]
      = "Based on the available information:\n\n"
          ++ joinWith ". " ((relevantSegments "At what temperature does ice melt?"
              "The sky is blue. Water boils at 100 degrees. Ice melts at 0 degrees.").take 3)
          ++ "\n\nSource: " ++ (some "doc1").getD "Unknown document"
          ++ " (Relevance: " ++ format2 ((9 : ℚ)/10) ++ ")"
          ++ fallback_sources_note [("The sky is blue. Water boils at 100 degrees. Ice melts at 0 degrees.",
              ⟨none, none, some "doc1"⟩, (9 : ℚ)/10)] :=
  (fallback_overlap_spec.1 "At what temperature does ice melt?" ""
    "The sky is blue. Water boils at 100 degrees. Ice melts at 0 degrees."
    ⟨none, none, some "doc1"⟩ ((9 : ℚ)/10) [] (by decide)).1

/-- C7. When no segment of the top chunk overlaps the query, the fallback
answer carries the first 300 characters of the chunk's text with "..."
appended exactly when the text is longer than 300 characters, together with
the top result's source label and its similarity score formatted to two
decimals. -/
theorem fallback_no_overlap_spec (query ctx text : String) (md : Metadata) (score : ℚ)
    (rest : List Chunk) (h : relevantSegments query text = []) :
    generate_fallback_response query ctx ((text, md, score) :: rest)
      = "I found information related to your query in " ++ md.source.getD "the document"
          ++ ", but I couldn't extract specific details. Here's what I found:\n\n"
          ++ (if 300 < text.length then pyTake 300 text ++ "..." else text)
          ++ "\n\n(Relevance: " ++ format2 score ++ ")"
          ++ fallback_sources_note ((text, md, score) :: rest) := by
  rw [generate_fallback_eq, if_pos (List.isEmpty_iff.mpr h)]

/-- Witness for C7: a query with no lexical overlap with the single stored
chunk. -/
theorem fallback_no_overlap_spec_witness :
    generate_fallback_response "zzz qqq" "" [("Hello world", ⟨none, none, some "doc1"⟩, (1 : ℚ)/2)]
      = "I found information related to your query in " ++ (some "doc1").getD "the document"
          ++ ", but I couldn't extract specific details. Here's what I found:\n\n"
          ++ (if 300 < ("Hello world" : String).length then pyTake 300 "Hello world" ++ "..."
              else "Hello world")
          ++ "\n\n(Relevance: " ++ format2 ((1 : ℚ)/2) ++ ")"
          ++ fallback_sources_note [("Hello world", ⟨none, none, some "doc1"⟩, (1 : ℚ)/2)] :=
  fallback_no_overlap_spec "zzz qqq" "" "Hello world" ⟨none, none, some "doc1"⟩ ((1 : ℚ)/2) []
    (by decide)

/-- C5. On an empty result list `generate_response` returns the fixed
no-information message with an empty call trace: context assembly and both
synthesis strategies (backend call and fallback) are never invoked,
whichever strategy the service was constructed with and whatever the
backend would answer. -/
theorem generate_response_empty_context (svc : LLMService)
    (backend : String → String → String) (query : String) :
    generate_response svc backend query []
      = ("I couldn't find relevant information to answer your question.", []) := rfl

/-- C8. With more than one result and more than one distinct source among
the top three, the fallback note reports the number of distinct sources and
lists each of them (every top-3 source label occurs in the listed
deduplication, whose length is the cardinality of the distinct label set);
the full fallback answer always ends with this note; and on a concrete
two-source input the note reads "found across 2 sources" naming both. -/
theorem fallback_multi_source_note :
    (∀ context_chunks : List Chunk,
      1 < context_chunks.length →
      1 < ((context_chunks.take 3).map (fun c => c.2.1.source.getD "Unknown")).dedup.length →
      fallback_sources_note context_chunks
        = "\n\nInformation was found across "
            ++ toString ((context_chunks.take 3).map (fun c => c.2.1.source.getD "Unknown")).dedup.length
            ++ " sources: "
            ++ joinWith ", " ((context_chunks.take 3).map (fun c => c.2.1.source.getD "Unknown")).dedup
      ∧ ((context_chunks.take 3).map (fun c => c.2.1.source.getD "Unknown")).dedup.length
          = ((context_chunks.take 3).map (fun c => c.2.1.source.getD "Unknown")).toFinset.card
      ∧ ∀ src ∈ (context_chunks.take 3).map (fun c => c.2.1.source.getD "Unknown"),
          src ∈ ((context_chunks.take 3).map (fun c => c.2.1.source.getD "Unknown")).dedup) ∧
    (∀ (query ctx : String) (context_chunks : List Chunk),
      ∃ core, generate_fallback_response query ctx context_chunks
        = core ++ fallback_sources_note context_chunks) ∧
    fallback_sources_note [("a", ⟨none, none, some "doc1"⟩, 1), ("b", ⟨none, none, some "doc2"⟩, (1 : ℚ)/2)]
      = "\n\nInformation was found across 2 sources: doc1, doc2" := by
  refine ⟨?_, ?_, by decide⟩
  · intro context_chunks h1 h2
    refine ⟨?_, (List.card_toFinset _).symm, fun src hs => List.mem_dedup.mpr hs⟩
    simp only [fallback_sources_note]
    rw [if_pos h1, if_pos h2]
  · intro query ctx context_chunks
    exact ⟨_, rfl⟩

/-- Witness for C8: two chunks from the two distinct sources of the concrete
scenario discharge the two hypotheses. -/
theorem fallback_multi_source_note_witness :
    fallback_sources_note chunksD
      = "\n\nInformation was found across "
          ++ toString ((chunksD.take 3).map (fun c => c.2.1.source.getD "Unknown")).dedup.length
          ++ " sources: "
          ++ joinWith ", " ((chunksD.take 3).map (fun c => c.2.1.source.getD "Unknown")).dedup :=
  (fallback_multi_source_note.1 chunksD (by decide) (by decide)).1

end RagKB
